import Mathlib

/-!
Shallow embedding of the geometry library in `include/geom.h` (namespace
`geom`): the `point`, `size` and `rect` value types and the free mip-level
functions, together with theorems settling the specification claims.

Modelling conventions:
* `recti` (= `rect<int, int>`) is embedded with mathematical `Int`
  coordinates; its operations use only comparisons, `+`, `-`, `min`/`max`
  and division by the literal 2, and C++ signed overflow is undefined
  behaviour, so no wrap-around is modelled for the signed coordinate type.
  C++ signed integer division truncates toward zero, hence `Int.tdiv`.
* `rectn` (= `rect<int, unsigned>`) construction is embedded with `Int`
  coordinates and `Nat` sizes; `static_cast<int>` of an `unsigned` value
  is the two's-complement reinterpretation `toInt32`.
* the unsigned `size<uint32_t>` functions (`mip_levels`,
  `nearest_mip_level`) are embedded over `Nat` with explicit `% 2^32`
  wherever C++ `unsigned` arithmetic can wrap, and `std::countl_zero` on a
  32-bit operand is `32 - bitlenAux 32 n`.
* `point<T>::rotate` calls `std::cos` / `std::sin`; those two results are
  abstracted as parameters `c` and `s` and the field arithmetic is taken
  exactly, so that the statement captures the data flow of the source
  (the new `x` is written first and then read when `y` is computed).
-/

namespace Geom

/-- The aggregate `struct point { T x, y; }` of geom.h. -/
structure Point (α : Type) where
  x : α
  y : α
deriving DecidableEq, Repr

/-- The aggregate `struct size { T width, height; }` of geom.h. -/
structure Size (α : Type) where
  width : α
  height : α
deriving DecidableEq, Repr

/-- The four private fields `x1, y1, x2, y2` of `class rect` in geom.h. -/
structure Rect (α : Type) where
  x1 : α
  y1 : α
  x2 : α
  y2 : α
deriving DecidableEq, Repr

/-- Embedding of `std::minmax(a, b)`: the pair `(min, max)`, where the second argument
wins ties, i.e. `(b, a)` when `b < a` and `(a, b)` otherwise. -/
def minmax (a b : Int) : Int × Int :=
  if b < a then (b, a) else (a, b)

/-- Embedding of `point<int>::manhattan_length` (geom.h lines 64-67):
`const auto & [min, max] = std::minmax(x, y); return max - min;`. -/
def Point.manhattan_length (p : Point Int) : Int :=
  (minmax p.x p.y).2 - (minmax p.x p.y).1

/-- Embedding of `point<T>::rotate` (geom.h lines 68-74) with exact arithmetic, where
`c` and `s` stand for the computed `std::cos(angle_rad)` and
`std::sin(angle_rad)`. The source mutates the field `x` first
(`x = x * c - y * s;`) and then evaluates `y = y * c + x * s;`, reading
the already-mutated `x`; the embedding reproduces that data flow. -/
def Point.rotate (p : Point ℚ) (c s : ℚ) : Point ℚ :=
  let x := p.x * c - p.y * s
  let y := p.y * c + x * s
  ⟨x, y⟩

/-- C6: `manhattan_length` returns the difference between the larger and
the smaller component, `max x y - min x y` (not the conventional
`|x| + |y|`), and at the concrete point `{3, -4}` it returns `3 - (-4) = 7`. -/
theorem manhattan_length_spec :
    (∀ p : Point Int, p.manhattan_length = max p.x p.y - min p.x p.y) ∧
    Point.manhattan_length ⟨3, -4⟩ = 7 := by
  constructor
  · intro p
    unfold Point.manhattan_length minmax
    split <;> omega
  · decide

/-- C7: `rotate` assigns `x' = x*c - y*s` to the `x` field first and then
computes the new `y` as `y*c + x'*s` from the already-mutated `x'`, so the
result differs from the standard 2D rotation `y*c + x*s` whenever
`s ≠ 0` and `x' ≠ x`. -/
theorem rotate_mutated_x_spec :
    (∀ (p : Point ℚ) (c s : ℚ),
      p.rotate c s = ⟨p.x * c - p.y * s, p.y * c + (p.x * c - p.y * s) * s⟩) ∧
    (∀ (p : Point ℚ) (c s : ℚ), s ≠ 0 → p.x * c - p.y * s ≠ p.x →
      (p.rotate c s).y ≠ p.y * c + p.x * s) := by
  constructor
  · intro p c s
    rfl
  · intro p c s hs hx h
    simp only [Point.rotate] at h
    exact hx (mul_right_cancel₀ hs (add_left_cancel h))

/-- Witness for C7 at `p = {1, 1}`, `c = 0`, `s = 1`: the hypotheses hold
and the computed `y` differs from the standard rotation's `y`. -/
theorem rotate_mutated_x_witness :
    (1 : ℚ) ≠ 0 ∧ (1 : ℚ) * 0 - 1 * 1 ≠ 1 ∧
    (Point.rotate ⟨1, 1⟩ 0 1).y ≠ (1 : ℚ) * 0 + 1 * 1 :=
  ⟨by norm_num, by norm_num,
    rotate_mutated_x_spec.2 ⟨1, 1⟩ 0 1 (by norm_num) (by norm_num)⟩

/-- Embedding of `rect::width` for `recti` (geom.h line 260): `static_cast<S>(x2 - x1)`,
the cast being the identity when `S = T = int`. -/
def Rect.width (r : Rect Int) : Int := r.x2 - r.x1

/-- Embedding of `rect::height` for `recti` (geom.h line 262): `static_cast<S>(y2 - y1)`. -/
def Rect.height (r : Rect Int) : Int := r.y2 - r.y1

/-- Embedding of `rect::top_left` (geom.h line 288): `point<T>{x1, y1}`. -/
def Rect.top_left (r : Rect Int) : Point Int := ⟨r.x1, r.y1⟩

/-- Embedding of `rect::bottom_right` (geom.h line 291): `point<T>{x2, y2}`. -/
def Rect.bottom_right (r : Rect Int) : Point Int := ⟨r.x2, r.y2⟩

/-- Embedding of `rect::center` (geom.h lines 293-298): `{x1 + (x2-x1)/T{2}, y1 + (y2-y1)/T{2}}`
with C++ signed division truncating toward zero. -/
def Rect.center (r : Rect Int) : Point Int :=
  ⟨r.x1 + Int.tdiv (r.x2 - r.x1) 2, r.y1 + Int.tdiv (r.y2 - r.y1) 2⟩

/-- Embedding of `rect::empty` (geom.h line 299): `x2 == x1 || y2 == y1`. -/
def Rect.empty (r : Rect Int) : Bool :=
  decide (r.x2 = r.x1) || decide (r.y2 = r.y1)

/-- Embedding of `rect::contains(T x, T y)` (geom.h line 300): the half-open test
`x1 <= x && x < x2 && y1 <= y && y < y2`. -/
def Rect.contains_xy (r : Rect Int) (x y : Int) : Bool :=
  decide (r.x1 ≤ x) && decide (x < r.x2) && decide (r.y1 ≤ y) && decide (y < r.y2)

/-- Embedding of `rect::contains(const point &)` (geom.h line 301): `contains(pt.x, pt.y)`. -/
def Rect.contains_pt (r : Rect Int) (p : Point Int) : Bool :=
  r.contains_xy p.x p.y

/-- Embedding of `rect::contains(const rect & inner)` (geom.h lines 302-304): the closed
test `inner.x1 >= x1 && inner.y1 >= y1 && inner.x2 <= x2 && inner.y2 <= y2`. -/
def Rect.contains_rect (r inner : Rect Int) : Bool :=
  decide (inner.x1 ≥ r.x1) && decide (inner.y1 ≥ r.y1) &&
    decide (inner.x2 ≤ r.x2) && decide (inner.y2 ≤ r.y2)

/-- Embedding of `rect::united` (geom.h lines 319-325): the other rectangle when the
receiver is `empty()`, the receiver when the other is `empty()`, and the
coordinatewise min of the origins with the max of the termini otherwise. -/
def Rect.united (r o : Rect Int) : Rect Int :=
  if r.empty then o
  else if o.empty then r
  else ⟨min r.x1 o.x1, min r.y1 o.y1, max r.x2 o.x2, max r.y2 o.y2⟩

/-- Embedding of `rect::intersected` (geom.h lines 351-356): `std::nullopt` when
`other.x1 >= x2 || other.x2 <= x1 || other.y1 >= y2 || other.y2 <= y1`,
otherwise the rectangle of the max of the origins and the min of the
termini. -/
def Rect.intersected (r o : Rect Int) : Option (Rect Int) :=
  if o.x1 ≥ r.x2 ∨ o.x2 ≤ r.x1 ∨ o.y1 ≥ r.y2 ∨ o.y2 ≤ r.y1 then none
  else some ⟨max r.x1 o.x1, max r.y1 o.y1, min r.x2 o.x2, min r.y2 o.y2⟩

/-- Embedding of `rect::move_center(T cx, T cy)` (geom.h lines 270-275): captures
`w = width()` and `h = height()`, sets `x1 = cx - w/2`, `y1 = cy - h/2`,
then `x2 = x1 + w`, `y2 = y1 + h`, with truncating signed division. -/
def Rect.move_center (r : Rect Int) (cx cy : Int) : Rect Int :=
  let w := r.width
  let h := r.height
  let nx1 := cx - Int.tdiv w 2
  let ny1 := cy - Int.tdiv h 2
  ⟨nx1, ny1, nx1 + w, ny1 + h⟩

/-- C2: `intersected` returns no rectangle exactly when
`other.x1 >= x2 || other.x2 <= x1 || other.y1 >= y2 || other.y2 <= y1`
(touching rectangles included), and otherwise returns the rectangle whose
origin is the coordinatewise max of the two origins and whose terminus is
the coordinatewise min of the two termini. -/
theorem intersected_spec :
    ∀ r o : Rect Int,
      (r.intersected o = none ↔
        (o.x1 ≥ r.x2 ∨ o.x2 ≤ r.x1 ∨ o.y1 ≥ r.y2 ∨ o.y2 ≤ r.y1)) ∧
      (r.intersected o = none ∨
        r.intersected o =
          some ⟨max r.x1 o.x1, max r.y1 o.y1, min r.x2 o.x2, min r.y2 o.y2⟩) := by
  intro r o
  unfold Rect.intersected
  split
  · simp_all
  · simp_all

/-- C3 counterexample: the signed rectangle `recti(0, 0, -1, 1)` (the
four-coordinate constructor performs no check for signed `S`) is not
`empty()` — its `x2 = -1` differs from `x1 = 0` — yet it does not contain
its own `top_left()`, refuting the claim for arbitrary non-empty
rectangles. -/
theorem contains_top_left_inverted_cex :
    Rect.empty ⟨0, 0, -1, 1⟩ = false ∧
    Rect.contains_pt ⟨0, 0, -1, 1⟩ (Rect.top_left ⟨0, 0, -1, 1⟩) = false := by
  decide

/-- C3 amended: for every rectangle with positive extents
(`x1 < x2` and `y1 < y2`), `contains(top_left())` is true and
`contains(bottom_right())` is false, by the half-open point-containment
test; non-empty alone does not suffice because a signed rectangle may have
an inverted extent. -/
theorem contains_corners (r : Rect Int) (hx : r.x1 < r.x2) (hy : r.y1 < r.y2) :
    r.contains_pt r.top_left = true ∧ r.contains_pt r.bottom_right = false := by
  unfold Rect.contains_pt Rect.contains_xy Rect.top_left Rect.bottom_right
  simp only [Bool.and_eq_true, Bool.and_eq_false_iff, decide_eq_true_eq,
    decide_eq_false_iff_not, not_lt, not_le]
  omega

/-- Witness for C3 at the rectangle `(0, 0, 10, 10)`. -/
theorem contains_corners_witness :
    (0 : Int) < 10 ∧
    (Rect.contains_pt ⟨0, 0, 10, 10⟩ (Rect.top_left ⟨0, 0, 10, 10⟩) = true ∧
      Rect.contains_pt ⟨0, 0, 10, 10⟩ (Rect.bottom_right ⟨0, 0, 10, 10⟩) = false) :=
  ⟨by decide, contains_corners ⟨0, 0, 10, 10⟩ (by decide) (by decide)⟩

/-- C4: for non-empty rectangles `a` and `b`, `a.united(b)` contains both
`a` and `b` under the closed rectangle-containment test. -/
theorem united_contains_both (a b : Rect Int)
    (ha : a.empty = false) (hb : b.empty = false) :
    (a.united b).contains_rect a = true ∧ (a.united b).contains_rect b = true := by
  unfold Rect.united
  simp only [ha, hb, Bool.false_eq_true, if_false]
  unfold Rect.contains_rect
  simp only [Bool.and_eq_true, decide_eq_true_eq, ge_iff_le]
  omega

/-- Witness for C4 at `a = (0,0,10,10)`, `b = (20,20,30,30)`. -/
theorem united_contains_both_witness :
    Rect.empty ⟨0, 0, 10, 10⟩ = false ∧ Rect.empty ⟨20, 20, 30, 30⟩ = false ∧
    ((Rect.united ⟨0, 0, 10, 10⟩ ⟨20, 20, 30, 30⟩).contains_rect ⟨0, 0, 10, 10⟩ = true ∧
      (Rect.united ⟨0, 0, 10, 10⟩ ⟨20, 20, 30, 30⟩).contains_rect ⟨20, 20, 30, 30⟩ = true) :=
  ⟨by decide, by decide,
    united_contains_both ⟨0, 0, 10, 10⟩ ⟨20, 20, 30, 30⟩ (by decide) (by decide)⟩

/-- C5: `move_center(cx, cy)` keeps `width()` and `height()` unchanged and
makes `center()` equal exactly `(cx, cy)`, for every rectangle and target,
because `move_center` and `center` truncate the same half-extent the same
way. -/
theorem move_center_spec :
    ∀ (r : Rect Int) (cx cy : Int),
      (r.move_center cx cy).width = r.width ∧
      (r.move_center cx cy).height = r.height ∧
      (r.move_center cx cy).center = ⟨cx, cy⟩ := by
  intro r cx cy
  have hmc : r.move_center cx cy =
      ⟨cx - Int.tdiv (r.x2 - r.x1) 2, cy - Int.tdiv (r.y2 - r.y1) 2,
        cx - Int.tdiv (r.x2 - r.x1) 2 + (r.x2 - r.x1),
        cy - Int.tdiv (r.y2 - r.y1) 2 + (r.y2 - r.y1)⟩ := rfl
  rw [hmc]
  unfold Rect.width Rect.height Rect.center
  simp only [Point.mk.injEq]
  refine ⟨by ring, by ring, ?_, ?_⟩
  · rw [show cx - Int.tdiv (r.x2 - r.x1) 2 + (r.x2 - r.x1) -
        (cx - Int.tdiv (r.x2 - r.x1) 2) = r.x2 - r.x1 from by ring]
    ring
  · rw [show cy - Int.tdiv (r.y2 - r.y1) 2 + (r.y2 - r.y1) -
        (cy - Int.tdiv (r.y2 - r.y1) 2) = r.y2 - r.y1 from by ring]
    ring

/-- Embedding of `static_cast<int>` of a C++ `unsigned int`: the two's-complement
reinterpretation of the value modulo `2^32`. -/
def toInt32 (n : Nat) : Int :=
  if n % 4294967296 < 2147483648 then ((n % 4294967296 : Nat) : Int)
  else ((n % 4294967296 : Nat) : Int) - 4294967296

/-- The `rectn` (= `rect<int, unsigned>`) four-coordinate constructor
(geom.h lines 240-246): for unsigned `S` it throws
`std::invalid_argument("Negative unsigned rect dimension")` when
`x2 < x1 || y2 < y1`, and otherwise stores the four coordinates. -/
def rectn_mk (x1 y1 x2 y2 : Int) : Except String (Rect Int) :=
  if x2 < x1 ∨ y2 < y1 then Except.error "Negative unsigned rect dimension"
  else Except.ok ⟨x1, y1, x2, y2⟩

/-- The `rectn` origin-plus-size constructor (geom.h line 256): declared
`noexcept`, it stores `{org.x, org.y, org.x + static_cast<T>(size.width),
org.y + static_cast<T>(size.height)}` without any check. -/
def rectn_from_org_size (org : Point Int) (sz : Size Nat) : Rect Int :=
  ⟨org.x, org.y, org.x + toInt32 sz.width, org.y + toInt32 sz.height⟩

/-- The `rectn` origin-plus-destination constructor (geom.h line 257):
declared `noexcept`, it stores `{org.x, org.y, dest.x, dest.y}` without
any check. -/
def rectn_from_points (org dest : Point Int) : Rect Int :=
  ⟨org.x, org.y, dest.x, dest.y⟩

/-- The `rectn` size-only constructor (geom.h line 258): delegates to the
(unchecked, `noexcept`) origin-plus-size constructor at origin `(0, 0)`. -/
def rectn_from_size (sz : Size Nat) : Rect Int :=
  rectn_from_org_size ⟨0, 0⟩ sz

/-- C1 counterexample: the origin-plus-destination construction path of
`rect<int, unsigned>` with `org = (5, 0)` and `dest = (2, 10)` succeeds —
it produces the rectangle `(5, 0, 2, 10)` — although the resulting corners
satisfy `x2 = 2 < 5 = x1`, so not every construction path fails on
`x2 < x1`. -/
theorem rectn_from_points_no_check :
    rectn_from_points ⟨5, 0⟩ ⟨2, 10⟩ = ⟨5, 0, 2, 10⟩ ∧ (2 : Int) < 5 :=
  ⟨rfl, by decide⟩

/-- C1 amended: for unsigned `S`, only the four-coordinate constructor
validates the corners — it fails with the invalid-argument error exactly
when `x2 < x1` or `y2 < y1` and stores the coordinates otherwise — while
the origin-plus-size, origin-plus-destination and size-only constructors
are `noexcept` and never fail, storing their corners unchecked even when
`x2 < x1` or `y2 < y1` results. -/
theorem rectn_ctor_spec :
    (∀ x1 y1 x2 y2 : Int,
      (rectn_mk x1 y1 x2 y2 = Except.ok ⟨x1, y1, x2, y2⟩ ↔ x1 ≤ x2 ∧ y1 ≤ y2) ∧
      ((∃ msg, rectn_mk x1 y1 x2 y2 = Except.error msg) ↔ x2 < x1 ∨ y2 < y1)) ∧
    (∀ org dest : Point Int,
      rectn_from_points org dest = ⟨org.x, org.y, dest.x, dest.y⟩) ∧
    (∀ (org : Point Int) (sz : Size Nat),
      rectn_from_org_size org sz =
        ⟨org.x, org.y, org.x + toInt32 sz.width, org.y + toInt32 sz.height⟩) ∧
    (∀ sz : Size Nat,
      rectn_from_size sz = ⟨0, 0, toInt32 sz.width, toInt32 sz.height⟩) := by
  refine ⟨?_, fun org dest => rfl, fun org sz => rfl, ?_⟩
  · intro x1 y1 x2 y2
    unfold rectn_mk
    split <;> refine ⟨?_, ?_⟩ <;> simp_all <;> omega
  · intro sz
    unfold rectn_from_size rectn_from_org_size
    simp

/-- Fuel-indexed binary length: `bitlenAux f n` halves `n` at most `f`
times and counts the steps, so for `n < 2^f` it is the bit length of `n`. -/
def bitlenAux : Nat → Nat → Nat
  | 0, _ => 0
  | fuel + 1, n => if n = 0 then 0 else bitlenAux fuel (n / 2) + 1

/-- Embedding of `std::countl_zero` on a 32-bit unsigned operand: 32 minus the bit
length of the value. -/
def countl_zero32 (n : Nat) : Nat :=
  32 - bitlenAux 32 n

/-- Embedding of `mip_levels(base_size)` for `size<uint32_t>` (geom.h lines 461-465):
`(sizeof(T) << 3) - countl_zero(min(width, height))` with
`sizeof(T) << 3 = 32`. -/
def mip_levels (s : Size Nat) : Nat :=
  32 - countl_zero32 (min s.width s.height)

/-- Embedding of `mip_levels(base_size, trim_levels)` (geom.h lines 467-471):
`l = mip_levels(base_size); return (l > trim_levels + 1u) ? (l - trim_levels) : 1u;`
with the `unsigned` additions and subtractions wrapping modulo `2^32`. -/
def mip_levels_trim (s : Size Nat) (trim : Nat) : Nat :=
  if (trim + 1) % 4294967296 < mip_levels s then
    (mip_levels s + (4294967296 - trim % 4294967296)) % 4294967296
  else 1

/-- Embedding of `nearest_mip_level(base_size, request_size)` for `uint32_t`
(geom.h lines 480-488): 0 when the request meets or exceeds either base
dimension, otherwise `32u - countl_zero(z) - 1u` for
`z = min(base.width / request.width, base.height / request.height)`. -/
def nearest_mip_level (base request : Size Nat) : Nat :=
  if request.width ≥ base.width ∨ request.height ≥ base.height then 0
  else 32 - countl_zero32
    (min (base.width / request.width) (base.height / request.height)) - 1

lemma bitlenAux_zero_eval (f : Nat) : bitlenAux f 0 = 0 := by
  cases f <;> simp [bitlenAux]

lemma bitlenAux_le (f n : Nat) : bitlenAux f n ≤ f := by
  induction f generalizing n with
  | zero => simp [bitlenAux]
  | succ f ih =>
    unfold bitlenAux
    split
    · omega
    · exact Nat.succ_le_succ (ih (n / 2))

lemma bitlenAux_pos (f n : Nat) (hf : 0 < f) (hn : 0 < n) :
    0 < bitlenAux f n := by
  cases f with
  | zero => omega
  | succ f =>
    unfold bitlenAux
    rw [if_neg (by omega)]
    omega

lemma bitlenAux_log2 (f n : Nat) (hn : 0 < n) (hf : n < 2 ^ f) :
    bitlenAux f n = Nat.log2 n + 1 := by
  induction f generalizing n with
  | zero => simp at hf; omega
  | succ f ih =>
    have hn0 : ¬n = 0 := by omega
    unfold bitlenAux
    rw [if_neg hn0]
    by_cases h2 : 2 ≤ n
    · have hdiv : 0 < n / 2 := Nat.div_pos h2 (by omega)
      have hp : (2 : Nat) ^ (f + 1) = 2 ^ f * 2 := pow_succ 2 f
      have hlt : n / 2 < 2 ^ f := by omega
      rw [ih (n / 2) hdiv hlt]
      have hlog : Nat.log2 n = Nat.log2 (n / 2) + 1 := by
        rw [Nat.log2]
        simp [h2]
      omega
    · have h1 : n = 1 := by omega
      subst h1
      have hlog1 : Nat.log2 1 = 0 := by
        rw [Nat.log2]
        norm_num
      norm_num [hlog1, bitlenAux_zero_eval]

lemma mip_levels_eq_bitlen (s : Size Nat) :
    mip_levels s = bitlenAux 32 (min s.width s.height) := by
  have h := bitlenAux_le 32 (min s.width s.height)
  unfold mip_levels countl_zero32
  omega

lemma mip_levels_le_32 (s : Size Nat) : mip_levels s ≤ 32 :=
  Nat.sub_le _ _

lemma mip_levels_eq_zero_iff (s : Size Nat) :
    mip_levels s = 0 ↔ min s.width s.height = 0 := by
  rw [mip_levels_eq_bitlen]
  constructor
  · intro h0
    by_contra hne
    have := bitlenAux_pos 32 (min s.width s.height) (by omega) (by omega)
    omega
  · intro h0
    rw [h0, bitlenAux_zero_eval]

lemma one_le_mip_levels_trim (s : Size Nat) (t : Nat) :
    1 ≤ mip_levels_trim s t := by
  have hl := mip_levels_le_32 s
  unfold mip_levels_trim
  revert hl
  generalize mip_levels s = l
  intro hl
  split <;> omega

/-- C8 counterexample: for the size `{1, 1}` and the trim count
`4294967295` (= `UINT_MAX`), `trim + 1u` wraps to 0, the code takes the
subtraction branch and the wrapping `l - trim` yields 2, while
`max(mip_levels(s) - trim, 1)` over the naturals is 1. -/
theorem mip_levels_trim_wrap_cex :
    mip_levels_trim ⟨1, 1⟩ 4294967295 ≠
      max (mip_levels ⟨1, 1⟩ - 4294967295) 1 := by
  decide

/-- C8 amended: for every unsigned size and every trim count `t` whose
increment does not wrap (`t + 1 < 2^32`), the two-argument
`mip_levels(s, t)` equals `max(mip_levels(s) - t, 1)` over the natural
numbers; at `t = 2^32 - 1` the `t + 1u` computation wraps and the equality
fails. -/
theorem mip_levels_trim_spec (s : Size Nat) (t : Nat)
    (ht : t + 1 < 4294967296) :
    mip_levels_trim s t = max (mip_levels s - t) 1 := by
  have hl := mip_levels_le_32 s
  unfold mip_levels_trim
  revert hl
  generalize mip_levels s = l
  intro hl
  split <;> omega

/-- Witness for C8 at `s = {256, 256}` and `t = 2`. -/
theorem mip_levels_trim_spec_witness :
    2 + 1 < 4294967296 ∧
    mip_levels_trim ⟨256, 256⟩ 2 = max (mip_levels ⟨256, 256⟩ - 2) 1 :=
  ⟨by decide, mip_levels_trim_spec ⟨256, 256⟩ 2 (by decide)⟩

/-- C9: for non-zero request dimensions and 32-bit base dimensions,
`nearest_mip_level(base, request)` is 0 when the request meets or exceeds
either base dimension and otherwise is
`floor(log2(min(base.width / request.width, base.height / request.height)))`
with truncating integer division, i.e. the bit length of the minimum
quotient minus one. -/
theorem nearest_mip_level_spec (base request : Size Nat)
    (hw : request.width ≠ 0) (hh : request.height ≠ 0)
    (hbw : base.width < 4294967296) (hbh : base.height < 4294967296) :
    nearest_mip_level base request =
      if request.width ≥ base.width ∨ request.height ≥ base.height then 0
      else Nat.log2
        (min (base.width / request.width) (base.height / request.height)) := by
  unfold nearest_mip_level
  by_cases hc : request.width ≥ base.width ∨ request.height ≥ base.height
  · rw [if_pos hc, if_pos hc]
  · rw [if_neg hc, if_neg hc]
    push_neg at hc
    obtain ⟨h1, h2⟩ := hc
    have hq1 : 0 < base.width / request.width :=
      Nat.div_pos (le_of_lt h1) (by omega)
    have hq2 : 0 < base.height / request.height :=
      Nat.div_pos (le_of_lt h2) (by omega)
    have hqb : base.width / request.width < 4294967296 :=
      lt_of_le_of_lt (Nat.div_le_self _ _) hbw
    have hzpos :
        0 < min (base.width / request.width) (base.height / request.height) := by
      omega
    have hzlt :
        min (base.width / request.width) (base.height / request.height) <
          2 ^ 32 := by
      have : (2 : Nat) ^ 32 = 4294967296 := by norm_num
      omega
    have hb := bitlenAux_log2 32 _ hzpos hzlt
    unfold countl_zero32
    have hble := bitlenAux_le 32
      (min (base.width / request.width) (base.height / request.height))
    omega

/-- Witness for C9 at `base = {256, 256}`, `request = {64, 100}`. -/
theorem nearest_mip_level_spec_witness :
    (64 : Nat) ≠ 0 ∧ (100 : Nat) ≠ 0 ∧
    (256 : Nat) < 4294967296 ∧
    nearest_mip_level ⟨256, 256⟩ ⟨64, 100⟩ =
      if (64 : Nat) ≥ 256 ∨ (100 : Nat) ≥ 256 then 0
      else Nat.log2 (min (256 / 64 : Nat) (256 / 100 : Nat)) :=
  ⟨by decide, by decide, by decide,
    nearest_mip_level_spec ⟨256, 256⟩ ⟨64, 100⟩
      (by decide) (by decide) (by decide) (by decide)⟩

/-- C10: the one-argument `mip_levels(s)` is 0 exactly when
`min(width, height) = 0`, the two-argument `mip_levels(s, t)` is always at
least 1, and therefore the two overloads disagree on every size with a
zero dimension even at `t = 0`. -/
theorem mip_overloads_spec :
    (∀ s : Size Nat, s.width < 4294967296 → s.height < 4294967296 →
      (mip_levels s = 0 ↔ min s.width s.height = 0)) ∧
    (∀ (s : Size Nat) (t : Nat), 1 ≤ mip_levels_trim s t) ∧
    (∀ s : Size Nat, s.width < 4294967296 → s.height < 4294967296 →
      min s.width s.height = 0 → mip_levels_trim s 0 ≠ mip_levels s) := by
  refine ⟨fun s _ _ => mip_levels_eq_zero_iff s,
    fun s t => one_le_mip_levels_trim s t, ?_⟩
  intro s hw hh hmin
  have h1 := (mip_levels_eq_zero_iff s).mpr hmin
  have h2 := one_le_mip_levels_trim s 0
  omega

/-- Witness for C10 at `s = {0, 5}` and `t = 0`. -/
theorem mip_overloads_spec_witness :
    (0 : Nat) < 4294967296 ∧ (5 : Nat) < 4294967296 ∧
    (mip_levels ⟨0, 5⟩ = 0 ↔ min (0 : Nat) 5 = 0) ∧
    1 ≤ mip_levels_trim ⟨0, 5⟩ 0 ∧
    mip_levels_trim ⟨0, 5⟩ 0 ≠ mip_levels ⟨0, 5⟩ :=
  ⟨by decide, by decide,
    mip_overloads_spec.1 ⟨0, 5⟩ (by decide) (by decide),
    mip_overloads_spec.2.1 ⟨0, 5⟩ 0,
    mip_overloads_spec.2.2 ⟨0, 5⟩ (by decide) (by decide) (by decide)⟩

end Geom
